import Mathlib

/-!
Shallow embedding of the multi-shop chat storefront bot (src/main.py) and
verification of its specification claims.

Conventions of the embedding:
* Python dicts keyed by ids are modelled as association lists (`lookupA` /
  `insertA`), which reproduces dict semantics including insertion order
  (update-in-place for an existing key, append for a new key).
* Firestore collections are lists of documents inside a `Store` record;
  `collection.add` appends a document (the generated document id, where the
  code uses it, is passed in as an explicit `freshId` argument).
* Timestamps (`datetime.now`) are passed in as explicit `now : Nat` arguments.
* Python string operations used by the code are re-implemented structurally so
  that the kernel can evaluate them: `str.strip` is `pyStrip`, `str.lower` is
  `pyLower`, `float(...)` is `parsePyFloat` (exact on ASCII inputs, with
  finite values as exact rationals — see its doc comment for the scope),
  `int(...)` is `parsePyInt`.
* Outbound chat messages are abstracted to a `Resp` tag per distinct message
  the handlers can send; claims only ever inspect which responses were sent.
-/

/-- Association-list lookup, modelling Python `dict.get`. -/
def lookupA {κ α : Type} [DecidableEq κ] : List (κ × α) → κ → Option α
  | [], _ => none
  | (k', v) :: rest, k => if k' = k then some v else lookupA rest k

/-- Association-list insert/update, modelling Python `dict[k] = v`
(update in place for an existing key, append for a new key). -/
def insertA {κ α : Type} [DecidableEq κ] : List (κ × α) → κ → α → List (κ × α)
  | [], k, v => [(k, v)]
  | (k', v') :: rest, k, v =>
    if k' = k then (k, v) :: rest else (k', v') :: insertA rest k v

theorem lookupA_insertA_self {κ α : Type} [DecidableEq κ] (xs : List (κ × α)) (k : κ) (v : α) :
    lookupA (insertA xs k v) k = some v := by
  induction xs with
  | nil => simp [insertA, lookupA]
  | cons p rest ih =>
    obtain ⟨k', v'⟩ := p
    by_cases h : k' = k
    · simp [insertA, lookupA, h]
    · simp [insertA, lookupA, h, ih]

theorem lookupA_insertA_ne {κ α : Type} [DecidableEq κ] (xs : List (κ × α)) (k k' : κ) (v : α)
    (h : k ≠ k') : lookupA (insertA xs k v) k' = lookupA xs k' := by
  induction xs with
  | nil => simp [insertA, lookupA, h]
  | cons p rest ih =>
    obtain ⟨k₀, v₀⟩ := p
    by_cases h₀ : k₀ = k
    · simp [insertA, lookupA, h₀, h]
    · simp [insertA, lookupA, h₀, ih]

theorem insertA_insertA {κ α : Type} [DecidableEq κ] (xs : List (κ × α)) (k : κ) (v w : α) :
    insertA (insertA xs k v) k w = insertA xs k w := by
  induction xs with
  | nil => simp [insertA]
  | cons p rest ih =>
    obtain ⟨k', v'⟩ := p
    by_cases h : k' = k
    · simp [insertA, h]
    · simp [insertA, h, ih]

/-- Python `str.lower` on a single character (ASCII range, which is all the
code ever compares against). -/
def pyLowerChar (c : Char) : Char :=
  if 'A' ≤ c ∧ c ≤ 'Z' then Char.ofNat (c.toNat + 32) else c

/-- Python `str.lower`. -/
def pyLower (s : String) : String := ⟨s.data.map pyLowerChar⟩

/-- Python's `str.isspace` on the ASCII range: `\t`, `\n`, `\x0b`, `\x0c`,
`\r`, the separator controls `\x1c`-`\x1f`, and the space character.
Unicode whitespace beyond ASCII is outside the model (see `parsePyFloat`). -/
def pyIsSpace (c : Char) : Bool :=
  c.toNat = 32 ∨ (9 ≤ c.toNat ∧ c.toNat ≤ 13) ∨ (28 ≤ c.toNat ∧ c.toNat ≤ 31)

/-- The whitespace `float(...)` itself skips around a number: C `isspace`,
which is `\t`, `\n`, `\x0b`, `\x0c`, `\r` and space — narrower than
`str.isspace` (the separator controls `\x1c`-`\x1f` are NOT skipped by
`float`, e.g. `float("\x1c5")` raises). -/
def cIsSpace (c : Char) : Bool :=
  c.toNat = 32 ∨ (9 ≤ c.toNat ∧ c.toNat ≤ 13)

/-- Strip characters satisfying `p` from both ends of a char list. -/
def stripBy (p : Char → Bool) (cs : List Char) : List Char :=
  ((cs.dropWhile p).reverse.dropWhile p).reverse

/-- Python `str.strip`. -/
def pyStrip (s : String) : String := ⟨stripBy pyIsSpace s.data⟩

/-- The result of Python `float(text)`: a finite value (kept as an exact
rational — the model does not round to binary64), an infinity, or a NaN. -/
inductive PyFloat where
  | finite (q : ℚ)
  | inf (neg : Bool)
  | nan
deriving DecidableEq

/-- Embeds the comparison `price <= 0` under IEEE-754 semantics, which is
exact (no rounding is involved in comparing against zero): false for NaN and
`+inf`, true for `-inf`, and the rational comparison for finite values. -/
def PyFloat.leZero : PyFloat → Bool
  | .finite q => q ≤ 0
  | .inf neg => neg
  | .nan => false

/-! ## Cache layer (`UserCache` in src/main.py) -/

/-- A cached user profile: the value stored in `UserCache.users`.
`shops` maps a shop id to the `last_interacted` timestamp
(the code stores a one-key dict `\x7b'last_interacted': now\x7d`). -/
structure UserProfile where
  telegram_id : Nat
  username : Option String
  first_name : Option String
  last_name : Option String
  created_at : Nat
  last_shop_id : Option String
  shops : List (String × Nat)
deriving DecidableEq

/-- The `user_data` dict argument of `UserCache.add_user`.  For the three
display fields the code reads `user_data.get(...)`, so key absence and an
explicit `None` coincide and a plain `Option` suffices; the same holds for
`last_shop_id` (`user_data.get('last_shop_id')`).  For `shops` the code reads
`user_data.get('shops', \x7b\x7d)`, so `none` models an absent key. -/
structure UserData where
  username : Option String := none
  first_name : Option String := none
  last_name : Option String := none
  last_shop_id : Option String := none
  shops : Option (List (String × Nat)) := none
deriving DecidableEq

/-- One in-flight category-creation flow: the dict stored under session key
`'adding_category'`. -/
structure CatFlow where
  shop_id : String
  step : String
  name : Option String := none
  description : Option String := none
  icon : Option String := none
deriving DecidableEq

/-- One in-flight product-creation flow: the dict stored under session key
`'adding_product'`. -/
structure ProdFlow where
  shop_id : String
  category_id : String
  category_name : String
  step : String
  name : Option String := none
  description : Option String := none
  price : Option PyFloat := none
  stock : Option Int := none
deriving DecidableEq

/-- The per-user session dict (`UserCache.user_sessions[uid]`); the code only
ever uses the two keys `'adding_category'` and `'adding_product'`. -/
structure SessionData where
  adding_category : Option CatFlow := none
  adding_product : Option ProdFlow := none
deriving DecidableEq

/-- The in-memory cache (`UserCache`).  `shop_members` is never used by the
code paths under specification and is omitted. -/
structure UserCache where
  users : List (Nat × UserProfile) := []
  user_sessions : List (Nat × SessionData) := []
deriving DecidableEq

/-- Embeds `UserCache.add_user`: builds a fresh profile dict from `user_data` and
stores it under `telegram_id`, replacing any previous entry wholesale
(the literal dict `\x7b...fixed keys..., **user_data\x7d`). -/
def UserCache.add_user (c : UserCache) (telegram_id : Nat) (user_data : UserData)
    (now : Nat) : UserCache :=
  { c with
    users := insertA c.users telegram_id
      { telegram_id := telegram_id
        username := user_data.username
        first_name := user_data.first_name
        last_name := user_data.last_name
        created_at := now
        last_shop_id := user_data.last_shop_id
        shops := user_data.shops.getD [] } }

/-- Embeds `UserCache.get_user`. -/
def UserCache.get_user (c : UserCache) (telegram_id : Nat) : Option UserProfile :=
  lookupA c.users telegram_id

/-- Embeds `UserCache.update_shop_interaction`: no-op when the user is not cached;
otherwise sets `last_shop_id` and overwrites `shops[shop_id]` with the
current timestamp. -/
def UserCache.update_shop_interaction (c : UserCache) (telegram_id : Nat)
    (shop_id : String) (now : Nat) : UserCache :=
  match lookupA c.users telegram_id with
  | none => c
  | some u =>
    { c with
      users := insertA c.users telegram_id
        { u with
          last_shop_id := some shop_id
          shops := insertA u.shops shop_id now } }

/-- Embeds `UserCache.get_user_session(uid, key)` returns the per-user session dict
entry; an absent user maps to an empty session dict. -/
def UserCache.get_session (c : UserCache) (telegram_id : Nat) : SessionData :=
  (lookupA c.user_sessions telegram_id).getD {}

/-- Embeds `UserCache.set_user_session(uid, 'adding_category', v)`. -/
def UserCache.set_adding_category (c : UserCache) (telegram_id : Nat) (v : CatFlow) :
    UserCache :=
  { c with
    user_sessions := insertA c.user_sessions telegram_id
      { c.get_session telegram_id with adding_category := some v } }

/-- Embeds `UserCache.set_user_session(uid, 'adding_product', v)`. -/
def UserCache.set_adding_product (c : UserCache) (telegram_id : Nat) (v : ProdFlow) :
    UserCache :=
  { c with
    user_sessions := insertA c.user_sessions telegram_id
      { c.get_session telegram_id with adding_product := some v } }

/-- Embeds `UserCache.clear_user_session(uid, 'adding_category')` (a `dict.pop`). -/
def UserCache.clear_adding_category (c : UserCache) (telegram_id : Nat) : UserCache :=
  match lookupA c.user_sessions telegram_id with
  | none => c
  | some s =>
    { c with
      user_sessions := insertA c.user_sessions telegram_id
        { s with adding_category := none } }

/-- Embeds `UserCache.clear_user_session(uid, 'adding_product')` (a `dict.pop`). -/
def UserCache.clear_adding_product (c : UserCache) (telegram_id : Nat) : UserCache :=
  match lookupA c.user_sessions telegram_id with
  | none => c
  | some s =>
    { c with
      user_sessions := insertA c.user_sessions telegram_id
        { s with adding_product := none } }

/-! ## Numeric input parsing (Python `float(...)` / `int(...)`) -/

/-- Decimal value of a digit list. -/
def digitsToNat (cs : List Char) : Nat :=
  cs.foldl (fun a c => a * 10 + (c.toNat - 48)) 0

/-- Mantissa and exponent of an (unsigned, underscore-free) decimal number
as `float(...)` accepts it: `digits ["." [digits]] [exp]` or `"." digits
[exp]` with `exp := ("e"|"E") [sign] digits`, at least one digit overall,
nothing trailing.  The value is kept as an exact rational. -/
def parsePyFloatCore (cs : List Char) : Option ℚ :=
  let ip := cs.takeWhile Char.isDigit
  let r1 := cs.dropWhile Char.isDigit
  let mantRest : Option ℚ × List Char :=
    match r1 with
    | '.' :: r2 =>
      let fp := r2.takeWhile Char.isDigit
      let r3 := r2.dropWhile Char.isDigit
      if ip.isEmpty ∧ fp.isEmpty then (none, r3)
      else (some ((digitsToNat ip : ℚ) + (digitsToNat fp : ℚ) / (10 : ℚ) ^ fp.length), r3)
    | _ => if ip.isEmpty then (none, r1) else (some (digitsToNat ip : ℚ), r1)
  match mantRest.1 with
  | none => none
  | some q =>
    match mantRest.2 with
    | [] => some q
    | e :: r4 =>
      if e = 'e' ∨ e = 'E' then
        let signRest : Bool × List Char :=
          match r4 with
          | '+' :: r => (false, r)
          | '-' :: r => (true, r)
          | r => (false, r)
        let ed := signRest.2.takeWhile Char.isDigit
        let r6 := signRest.2.dropWhile Char.isDigit
        if ed.isEmpty ∨ ¬ r6.isEmpty then none
        else some (if signRest.1 then q / (10 : ℚ) ^ digitsToNat ed
                   else q * (10 : ℚ) ^ digitsToNat ed)
      else none

/-- Python's underscore placement rule for numeric strings
(`_Py_string_to_number_with_underscores`): every `_` must be immediately
preceded and followed by a digit.  `prev` is the character before the
current position. -/
def undOkAux : Char → List Char → Bool
  | _, [] => true
  | prev, c :: rest =>
    if c = '_' then
      prev.isDigit &&
      (match rest with
       | d :: _ => d.isDigit
       | [] => false) &&
      undOkAux c rest
    else undOkAux c rest

/-- Underscore placement check for a whole numeric string: a leading `_`
has no preceding digit and fails outright. -/
def undOk : List Char → Bool
  | [] => true
  | '_' :: _ => false
  | c :: rest => undOkAux c rest

/-- The part of `float(text)` after an optional sign, on an underscore-free
string: the case-insensitive keywords `inf`, `infinity` and `nan`, else a
decimal number (`parsePyFloatCore`). -/
def parsePyFloatKeywordOrNumber (neg : Bool) (r : List Char) : Option PyFloat :=
  let low := r.map pyLowerChar
  if low = "inf".data ∨ low = "infinity".data then some (.inf neg)
  else if low = "nan".data then some .nan
  else (parsePyFloatCore r).map (fun q => .finite (if neg then -q else q))

/-- Python `float(text)`: skip surrounding C whitespace, validate underscore
placement, drop the underscores, then parse an optional sign followed by
`inf`/`infinity`/`nan` or a decimal number.

Model scope: this is exact for ASCII inputs (CPython first maps Unicode
decimal digits and Unicode whitespace to ASCII, a normalization outside this
model; the theorem about the price step therefore carries an ASCII-input
hypothesis).  Finite values are exact rationals, not rounded binary64
doubles: rounding never flips the sign of a value, so the program's
`price <= 0` test can disagree with `PyFloat.leZero` only for tiny positive
values that underflow to `+0.0` — inputs that parse to a *positive* decimal
value and hence lie outside the non-positive/invalid hypothesis of the
price-step theorem. -/
def parsePyFloat (s : String) : Option PyFloat :=
  let cs0 := stripBy cIsSpace s.data
  if undOk cs0 then
    match cs0.filter (fun c => ¬ c = '_') with
    | '+' :: r => parsePyFloatKeywordOrNumber false r
    | '-' :: r => parsePyFloatKeywordOrNumber true r
    | r => parsePyFloatKeywordOrNumber false r
  else none

/-- Python `int(text)`: optional sign followed by one or more digits.  The
underscore grouping and non-ASCII digits `int(...)` also accepts are not
modelled; no claim depends on the stock parser's accept set. -/
def parsePyInt (s : String) : Option Int :=
  match s.data with
  | '+' :: r => if r ≠ [] ∧ r.all Char.isDigit then some (digitsToNat r : Int) else none
  | '-' :: r => if r ≠ [] ∧ r.all Char.isDigit then some (-(digitsToNat r : Int)) else none
  | r => if r ≠ [] ∧ r.all Char.isDigit then some (digitsToNat r : Int) else none

/-! ## Document store (the Firestore collections the code touches) -/

/-- A document of the `users` collection (fields the code reads/writes). -/
structure UserDoc where
  firebase_uid : Option String := none
  last_shop_id : Option String := none
  shops : List (String × Nat) := []
deriving DecidableEq

/-- A document of the `shops` collection. -/
structure ShopDoc where
  name : String
  description : Option String := none
  isActive : Bool := true
  ownerId : Option String := none
deriving DecidableEq

/-- A document of the `categories` collection (all fields `create_category`
writes). -/
structure CategoryDoc where
  name : String
  description : String
  icon : String
  order : Nat
  shopId : String
  userId : String
  createdAt : Nat
  updatedAt : Nat
deriving DecidableEq

/-- A document of the `products` collection (all fields `create_product`
writes). -/
structure ProductDoc where
  name : String
  description : String := ""
  price : PyFloat
  stock : Int
  category : String
  subcategory : String := ""
  images : List String := []
  sku : String := ""
  isActive : Bool := true
  lowStockAlert : Nat := 5
  shopId : String
  createdAt : Nat := 0
  updatedAt : Nat := 0
deriving DecidableEq

/-- One line item of an order (`order_data['items']`). -/
structure OrderItem where
  productId : String
  productName : String
  quantity : Nat
  price : PyFloat
  total : PyFloat
deriving DecidableEq

/-- A document of the `orders` collection (all fields `handle_order_request`
writes). -/
structure OrderDoc where
  shopId : String
  customerId : String
  customerName : String
  telegramId : String
  telegramUsername : Option String
  items : List OrderItem
  total : PyFloat
  deliveryMethod : String
  paymentPreference : String
  tableNumber : String
  source : String
  status : String
  paymentStatus : String
  createdAt : Nat
  updatedAt : Nat
deriving DecidableEq

/-- The external document store.  Keyed lists carry the document ids the code
uses in callbacks (`users` documents are keyed by the numeric telegram id the
code stringifies). -/
structure Store where
  users_docs : List (Nat × UserDoc) := []
  shops : List (String × ShopDoc) := []
  categories : List (String × CategoryDoc) := []
  products : List (String × ProductDoc) := []
  orders : List OrderDoc := []
deriving DecidableEq

/-- Stable insertion of a category in front of the first entry with a
greater-or-equal `order` value. -/
def insertSortedByOrder (c : String × CategoryDoc) :
    List (String × CategoryDoc) → List (String × CategoryDoc)
  | [] => [c]
  | d :: rest =>
    if c.2.order ≤ d.2.order then c :: d :: rest else d :: insertSortedByOrder c rest

/-- Stable sort by the `order` field, as `category_list.sort(key=...)`. -/
def sortByOrder : List (String × CategoryDoc) → List (String × CategoryDoc)
  | [] => []
  | c :: rest => insertSortedByOrder c (sortByOrder rest)

/-- Embeds `get_shop_categories`: the shop's categories (with their document ids)
sorted stably by `order`. -/
def get_shop_categories (st : Store) (shop_id : String) :
    List (String × CategoryDoc) :=
  sortByOrder (st.categories.filter (fun p => p.2.shopId = shop_id))

/-- Embeds `is_shop_owner`: the claim-based check — the user document's
`firebase_uid` (a falsy value fails) must equal the shop document's
`ownerId`. -/
def is_shop_owner (st : Store) (user_id : Nat) (shop_id : String) : Bool :=
  match lookupA st.users_docs user_id with
  | none => false
  | some u =>
    match u.firebase_uid with
    | none => false
    | some fuid =>
      if fuid = "" then false
      else
        match lookupA st.shops shop_id with
        | some sh => sh.ownerId = some fuid
        | none => false

/-- Embeds `is_shop_owner_by_telegram_id`: lookup in the preloaded
`shop_owners` table. -/
def is_shop_owner_by_telegram_id (owners : List (String × Nat)) (user_id : Nat)
    (shop_id : String) : Bool :=
  lookupA owners shop_id = some user_id

/-- Embeds `get_user_firebase_uid`: the stored `firebase_uid`, defaulting to the
stringified telegram id. -/
def get_user_firebase_uid (st : Store) (telegram_id : Nat) : String :=
  match lookupA st.users_docs telegram_id with
  | some u => u.firebase_uid.getD (toString telegram_id)
  | none => toString telegram_id

/-- Embeds `update_user_shop_interaction`: Firestore `update` on the user document
(raises on a missing document; the code catches and logs, leaving the store
unchanged). -/
def update_user_shop_interaction (st : Store) (telegram_id : Nat) (shop_id : String)
    (now : Nat) : Store :=
  match lookupA st.users_docs telegram_id with
  | none => st
  | some u =>
    { st with
      users_docs := insertA st.users_docs telegram_id
        { u with last_shop_id := some shop_id, shops := insertA u.shops shop_id now } }

/-! ## Handlers -/

/-- Outbound responses, one tag per distinct message a modelled handler can
send. -/
inductive Resp where
  | shopMenu
  | productNotFound
  | unavailableItem
  | orderConfirmation
  | permissionDenied
  | startCategoryPrompt
  | noCategoriesPrompt
  | startProductPrompt
  | categorySelectPrompt
  | categoryNotFound
  | promptCategoryDescription
  | promptCategoryIcon
  | categoryCreated
  | promptProductDescription
  | promptProductPrice
  | promptProductStock
  | productCreated
  | invalidPrice
  | invalidStock
  | errorCreating
  | defaultHelp
  | errorResp
deriving DecidableEq

/-- Result of one inbound event: the updated cache, the updated store, and
the responses sent. -/
structure HandlerOut where
  cache : UserCache
  store : Store
  resps : List Resp
deriving DecidableEq

/-- The telegram user record obtained via `context.bot.get_chat(user_id)`. -/
structure ChatUser where
  username : Option String := none
  first_name : String := ""
  last_name : Option String := none
deriving DecidableEq

/-- Embeds `create_category`: commits the assembled category (order = current
category count of the shop) and clears the session.  A missing `name` key
raises `KeyError`, which the function's own handler turns into an error
response plus a session clear without persisting anything. -/
def create_category (cache : UserCache) (st : Store) (user_id : Nat) (session_data : CatFlow)
    (freshId : String) (now : Nat) : HandlerOut :=
  match session_data.name with
  | some nm =>
    let next_order := (get_shop_categories st session_data.shop_id).length
    let doc : CategoryDoc :=
      { name := nm
        description := session_data.description.getD ""
        icon := session_data.icon.getD "📦"
        order := next_order
        shopId := session_data.shop_id
        userId := get_user_firebase_uid st user_id
        createdAt := now
        updatedAt := now }
    { cache := cache.clear_adding_category user_id
      store := { st with categories := st.categories ++ [(freshId, doc)] }
      resps := [.categoryCreated] }
  | none =>
    { cache := cache.clear_adding_category user_id, store := st, resps := [.errorCreating] }

/-- Embeds `create_product`: commits the assembled product and clears the session.
Missing required keys (`name`/`price`/`stock`) raise `KeyError`, turned into
an error response plus a session clear without persisting anything. -/
def create_product (cache : UserCache) (st : Store) (user_id : Nat) (session_data : ProdFlow)
    (freshId : String) (now : Nat) : HandlerOut :=
  match session_data.name, session_data.price, session_data.stock with
  | some nm, some pr, some stk =>
    let doc : ProductDoc :=
      { name := nm
        description := session_data.description.getD ""
        price := pr
        stock := stk
        category := session_data.category_name
        subcategory := ""
        images := []
        sku := ""
        isActive := true
        lowStockAlert := 5
        shopId := session_data.shop_id
        createdAt := now
        updatedAt := now }
    { cache := cache.clear_adding_product user_id
      store := { st with products := st.products ++ [(freshId, doc)] }
      resps := [.productCreated] }
  | _, _, _ =>
    { cache := cache.clear_adding_product user_id, store := st, resps := [.errorCreating] }

/-- Embeds `process_category_creation`.  In the `description` and `icon` branches the
code reads `session_data['name']` for the outbound message after having
stored the step update: a missing name raises `KeyError` and the function's
handler then clears the session.  A step outside the flow's step names falls
through every branch: nothing is changed and nothing is sent. -/
def process_category_creation (cache : UserCache) (st : Store) (user_id : Nat)
    (text : String) (session_data : CatFlow) (freshId : String) (now : Nat) : HandlerOut :=
  if session_data.step = "name" then
    let s1 := { session_data with name := some text, step := "description" }
    { cache := cache.set_adding_category user_id s1, store := st
      resps := [.promptCategoryDescription] }
  else if session_data.step = "description" then
    let s0 := if pyLower text ≠ "skip" then { session_data with description := some text }
              else session_data
    let s1 := { s0 with step := "icon" }
    let cache1 := cache.set_adding_category user_id s1
    match session_data.name with
    | some _ => { cache := cache1, store := st, resps := [.promptCategoryIcon] }
    | none =>
      { cache := cache1.clear_adding_category user_id, store := st, resps := [.errorCreating] }
  else if session_data.step = "icon" then
    let s1 := { session_data with
                icon := some (if pyLower text ≠ "skip" then text else "📦") }
    create_category cache st user_id s1 freshId now
  else
    { cache := cache, store := st, resps := [] }

/-- Embeds `process_product_creation`.  The `price`/`stock` branches re-prompt
without touching any state on a parse failure or an out-of-range value; the
`description`/`price` branches read `session_data['name']` for the outbound
message after storing the update (see `process_category_creation`). -/
def process_product_creation (cache : UserCache) (st : Store) (user_id : Nat)
    (text : String) (session_data : ProdFlow) (freshId : String) (now : Nat) : HandlerOut :=
  if session_data.step = "name" then
    let s1 := { session_data with name := some text, step := "description" }
    { cache := cache.set_adding_product user_id s1, store := st
      resps := [.promptProductDescription] }
  else if session_data.step = "description" then
    let s0 := if pyLower text ≠ "skip" then { session_data with description := some text }
              else session_data
    let s1 := { s0 with step := "price" }
    let cache1 := cache.set_adding_product user_id s1
    match session_data.name with
    | some _ => { cache := cache1, store := st, resps := [.promptProductPrice] }
    | none =>
      { cache := cache1.clear_adding_product user_id, store := st, resps := [.errorCreating] }
  else if session_data.step = "price" then
    match parsePyFloat text with
    | none => { cache := cache, store := st, resps := [.invalidPrice] }
    | some price =>
      if price.leZero then { cache := cache, store := st, resps := [.invalidPrice] }
      else
        let s1 := { session_data with price := some price, step := "stock" }
        let cache1 := cache.set_adding_product user_id s1
        match session_data.name with
        | some _ => { cache := cache1, store := st, resps := [.promptProductStock] }
        | none =>
          { cache := cache1.clear_adding_product user_id, store := st
            resps := [.errorCreating] }
  else if session_data.step = "stock" then
    match parsePyInt text with
    | none => { cache := cache, store := st, resps := [.invalidStock] }
    | some stock =>
      if stock < 0 then { cache := cache, store := st, resps := [.invalidStock] }
      else create_product cache st user_id { session_data with stock := some stock } freshId now
  else
    { cache := cache, store := st, resps := [] }

/-- Embeds `handle_text_message`: strips the inbound text and dispatches to the
active flow (`adding_category` first), else sends the default reply. -/
def handle_text_message (cache : UserCache) (st : Store) (user_id : Nat)
    (raw : String) (freshId : String) (now : Nat) : HandlerOut :=
  let text := pyStrip raw
  match (cache.get_session user_id).adding_category with
  | some flow => process_category_creation cache st user_id text flow freshId now
  | none =>
    match (cache.get_session user_id).adding_product with
    | some flow => process_product_creation cache st user_id text flow freshId now
    | none => { cache := cache, store := st, resps := [.defaultHelp] }

/-- Embeds `handle_add_category`: the ownership gate, then a fresh
`adding_category` session at step `name`. -/
def handle_add_category (cache : UserCache) (st : Store) (owners : List (String × Nat))
    (user_id : Nat) (shop_id : String) : HandlerOut :=
  if ¬ (is_shop_owner st user_id shop_id ∨ is_shop_owner_by_telegram_id owners user_id shop_id) then
    { cache := cache, store := st, resps := [.permissionDenied] }
  else
    { cache := cache.set_adding_category user_id { shop_id := shop_id, step := "name" }
      store := st, resps := [.startCategoryPrompt] }

/-- Embeds `handle_add_product`: the ownership gate; with a target category id a
fresh `adding_product` session at step `name`, else a category-selection
menu (or a no-categories message). -/
def handle_add_product (cache : UserCache) (st : Store) (owners : List (String × Nat))
    (user_id : Nat) (shop_id : String) (category_id : Option String) : HandlerOut :=
  if ¬ (is_shop_owner st user_id shop_id ∨ is_shop_owner_by_telegram_id owners user_id shop_id) then
    { cache := cache, store := st, resps := [.permissionDenied] }
  else
    let categories := get_shop_categories st shop_id
    if categories.isEmpty then
      { cache := cache, store := st, resps := [.noCategoriesPrompt] }
    else
      match category_id with
      | some cid =>
        match categories.find? (fun p => p.1 = cid) with
        | none => { cache := cache, store := st, resps := [.categoryNotFound] }
        | some cat =>
          { cache := cache.set_adding_product user_id
              { shop_id := shop_id, category_id := cid, category_name := cat.2.name
                step := "name" }
            store := st, resps := [.startProductPrompt] }
      | none => { cache := cache, store := st, resps := [.categorySelectPrompt] }

/-- Embeds `handle_order_request`: availability gate, then exactly one order append
(the notification side effect touches no store state). -/
def handle_order_request (st : Store) (user_id : Nat) (shop_id product_id : String)
    (user : ChatUser) (now : Nat) : Store × List Resp :=
  match lookupA st.products product_id with
  | none => (st, [.productNotFound])
  | some p =>
    if ¬ p.isActive ∨ p.stock ≤ 0 then (st, [.unavailableItem])
    else
      let customer_name := pyStrip (user.first_name ++ " " ++ user.last_name.getD "")
      let customer_id :=
        match user.username with
        | some s => if s = "" then "user_" ++ toString user_id else s
        | none => "user_" ++ toString user_id
      let item : OrderItem :=
        { productId := product_id, productName := p.name, quantity := 1
          price := p.price, total := p.price }
      let order : OrderDoc :=
        { shopId := shop_id
          customerId := customer_id
          customerName := customer_name
          telegramId := toString user_id
          telegramUsername := user.username
          items := [item]
          total := p.price
          deliveryMethod := "pickup"
          paymentPreference := "cash"
          tableNumber := "TG-" ++ toString user_id
          source := "telegram"
          status := "pending"
          paymentStatus := "pending"
          createdAt := now
          updatedAt := now }
      ({ st with orders := st.orders ++ [order] }, [.orderConfirmation])

/-- The `skip_category_desc_` button branch of `button_callback`: forces the
active category flow to step `icon` (no step check).  The outbound message
reads the flow's `name`; when it is missing the button handler's `except`
only reports an error — the session update stays. -/
def skip_category_desc_button (cache : UserCache) (st : Store) (user_id : Nat) : HandlerOut :=
  match (cache.get_session user_id).adding_category with
  | none => { cache := cache, store := st, resps := [] }
  | some f =>
    { cache := cache.set_adding_category user_id { f with step := "icon" }
      store := st
      resps := match f.name with | some _ => [.promptCategoryIcon] | none => [.errorResp] }

/-- The `skip_category_icon_` button branch of `button_callback`: sets the
default icon on the active category flow and commits it. -/
def skip_category_icon_button (cache : UserCache) (st : Store) (user_id : Nat)
    (freshId : String) (now : Nat) : HandlerOut :=
  match (cache.get_session user_id).adding_category with
  | none => { cache := cache, store := st, resps := [] }
  | some f => create_category cache st user_id { f with icon := some "📦" } freshId now

/-- The `skip_product_desc_` button branch of `button_callback`: forces the
active product flow to step `price` (no step check). -/
def skip_product_desc_button (cache : UserCache) (st : Store) (user_id : Nat) : HandlerOut :=
  match (cache.get_session user_id).adding_product with
  | none => { cache := cache, store := st, resps := [] }
  | some f =>
    { cache := cache.set_adding_product user_id { f with step := "price" }
      store := st
      resps := match f.name with | some _ => [.promptProductPrice] | none => [.errorResp] }

/-! ## Button payload wire protocol

Payloads are Python strings, modelled here as `List Char` so that the split
and startswith logic is structurally computable.  `splitAllUnd` is
`data.split("_")`; `afterUnd k` is `data.split("_", k)[k]` (defined when the
payload contains at least `k` underscores, which every branch using it
guarantees via its startswith guard). -/

/-- Python `data.split("_")` on a char list. -/
def splitAllUnd : List Char → List (List Char)
  | [] => [[]]
  | c :: rest =>
    if c = '_' then [] :: splitAllUnd rest
    else (c :: (splitAllUnd rest).headD []) :: (splitAllUnd rest).tail

/-- Python `data.split("_", k)[k]` on a char list: everything after the
`k`-th underscore. -/
def afterUnd : Nat → List Char → List Char
  | 0, l => l
  | _+1, [] => []
  | n+1, c :: rest => if c = '_' then afterUnd n rest else afterUnd (n+1) rest

/-- The actions the core encodes into button payloads when building menus,
with the identifiers they carry. -/
inductive BtnAction where
  | refreshShops
  | shop (shopId : List Char)
  | category (shopId categoryId : List Char)
  | product (shopId productId : List Char)
  | order (shopId productId : List Char)
  | addCategory (shopId : List Char)
  | addProductCategory (shopId categoryId : List Char)
  | addProduct (shopId : List Char)
  | shopStats (shopId : List Char)
  | shopSettings (shopId : List Char)
  | manageStaff (shopId : List Char)
  | viewAnalytics (shopId : List Char)
  | sendAnnouncement (shopId : List Char)
  | skipCategoryDesc (shopId : List Char)
  | skipCategoryIcon (shopId : List Char)
  | skipProductDesc (shopId : List Char)
deriving DecidableEq

/-- The identifiers an action carries (used to state delimiter-freeness). -/
def BtnAction.ids : BtnAction → List (List Char)
  | .refreshShops => []
  | .shop s => [s]
  | .category s c => [s, c]
  | .product s p => [s, p]
  | .order s p => [s, p]
  | .addCategory s => [s]
  | .addProductCategory s c => [s, c]
  | .addProduct s => [s]
  | .shopStats s => [s]
  | .shopSettings s => [s]
  | .manageStaff s => [s]
  | .viewAnalytics s => [s]
  | .sendAnnouncement s => [s]
  | .skipCategoryDesc s => [s]
  | .skipCategoryIcon s => [s]
  | .skipProductDesc s => [s]

/-- Encoding side: the `callback_data` f-strings used when building menus. -/
def encode_payload : BtnAction → List Char
  | .refreshShops => "refresh_shops".data
  | .shop s => "shop_".data ++ s
  | .category s c => "category_".data ++ s ++ "_".data ++ c
  | .product s p => "product_".data ++ s ++ "_".data ++ p
  | .order s p => "order_".data ++ s ++ "_".data ++ p
  | .addCategory s => "add_category_".data ++ s
  | .addProductCategory s c => "add_product_category_".data ++ s ++ "_".data ++ c
  | .addProduct s => "add_product_".data ++ s
  | .shopStats s => "shop_stats_".data ++ s
  | .shopSettings s => "shop_settings_".data ++ s
  | .manageStaff s => "manage_staff_".data ++ s
  | .viewAnalytics s => "view_analytics_".data ++ s
  | .sendAnnouncement s => "send_announcement_".data ++ s
  | .skipCategoryDesc s => "skip_category_desc_".data ++ s
  | .skipCategoryIcon s => "skip_category_icon_".data ++ s
  | .skipProductDesc s => "skip_product_desc_".data ++ s

/-- What the decoding side recovers: a dispatched action, a silent fall
through (no branch taken, or a length guard failing), or an exception
reported as a generic error (`IndexError` caught by the outer handler). -/
inductive Decoded where
  | act (a : BtnAction)
  | noAction
  | errorResp
deriving DecidableEq

/-- Decoding side: the `elif data.startswith(...)` chain of
`button_callback`, in source order. -/
def decode_payload (data : List Char) : Decoded :=
  if data = "refresh_shops".data then .act .refreshShops
  else if List.isPrefixOf "shop_".data data then .act (.shop (afterUnd 1 data))
  else if List.isPrefixOf "category_".data data then
    let parts := splitAllUnd data
    if 3 ≤ parts.length then .act (.category (parts.getD 1 []) (parts.getD 2 []))
    else .noAction
  else if List.isPrefixOf "product_".data data then
    let parts := splitAllUnd data
    if 3 ≤ parts.length then .act (.product (parts.getD 1 []) (parts.getD 2 []))
    else .noAction
  else if List.isPrefixOf "order_".data data then
    let parts := splitAllUnd data
    if 3 ≤ parts.length then .act (.order (parts.getD 1 []) (parts.getD 2 []))
    else .noAction
  else if List.isPrefixOf "add_category_".data data then .act (.addCategory (afterUnd 2 data))
  else if List.isPrefixOf "add_product_category_".data data then
    let parts := splitAllUnd data
    if 5 ≤ parts.length then .act (.addProductCategory (parts.getD 3 []) (parts.getD 4 []))
    else if 4 ≤ parts.length then .errorResp
    else .noAction
  else if List.isPrefixOf "add_product_".data data then .act (.addProduct (afterUnd 2 data))
  else if List.isPrefixOf "shop_stats_".data data then .act (.shopStats (afterUnd 2 data))
  else if List.isPrefixOf "shop_settings_".data data then .act (.shopSettings (afterUnd 2 data))
  else if List.isPrefixOf "manage_staff_".data data then .act (.manageStaff (afterUnd 2 data))
  else if List.isPrefixOf "view_analytics_".data data then .act (.viewAnalytics (afterUnd 2 data))
  else if List.isPrefixOf "send_announcement_".data data then
    .act (.sendAnnouncement (afterUnd 2 data))
  else if List.isPrefixOf "skip_category_desc_".data data then
    .act (.skipCategoryDesc (afterUnd 3 data))
  else if List.isPrefixOf "skip_category_icon_".data data then
    .act (.skipCategoryIcon (afterUnd 3 data))
  else if List.isPrefixOf "skip_product_desc_".data data then
    .act (.skipProductDesc (afterUnd 3 data))
  else .noAction

/-! ## Navigation events (for the order-intake claim) -/

/-- Combined bot state threaded through inbound events. -/
structure BotState where
  cache : UserCache
  store : Store
deriving DecidableEq

/-- A navigation screen view.  `viewShop` is `send_shop_menu` (records the
shop visit in the cache and in the user document); category and product
views only read the store. -/
inductive NavEvent where
  | viewShop (user_id : Nat) (shopId : String) (now : Nat)
  | viewCategory (shopId categoryId : String)
  | viewProduct (shopId productId : String)
deriving DecidableEq

/-- Effect of one navigation view on the bot state. -/
def navStep (st : BotState) : NavEvent → BotState
  | .viewShop user_id shopId now =>
    { cache := st.cache.update_shop_interaction user_id shopId now
      store := update_user_shop_interaction st.store user_id shopId now }
  | .viewCategory _ _ => st
  | .viewProduct _ _ => st

/-! ## Basic lemmas about the cache session operations -/

theorem get_session_set_adding_category (c : UserCache) (uid : Nat) (v : CatFlow) :
    (c.set_adding_category uid v).get_session uid =
      { c.get_session uid with adding_category := some v } := by
  simp [UserCache.set_adding_category, UserCache.get_session, lookupA_insertA_self]

theorem get_session_set_adding_product (c : UserCache) (uid : Nat) (v : ProdFlow) :
    (c.set_adding_product uid v).get_session uid =
      { c.get_session uid with adding_product := some v } := by
  simp [UserCache.set_adding_product, UserCache.get_session, lookupA_insertA_self]

theorem get_session_clear_adding_category (c : UserCache) (uid : Nat) :
    (c.clear_adding_category uid).get_session uid =
      { c.get_session uid with adding_category := none } := by
  unfold UserCache.clear_adding_category
  cases h : lookupA c.user_sessions uid with
  | none => simp [UserCache.get_session, h]
  | some s => simp [UserCache.get_session, h, lookupA_insertA_self]

theorem get_session_clear_adding_product (c : UserCache) (uid : Nat) :
    (c.clear_adding_product uid).get_session uid =
      { c.get_session uid with adding_product := none } := by
  unfold UserCache.clear_adding_product
  cases h : lookupA c.user_sessions uid with
  | none => simp [UserCache.get_session, h]
  | some s => simp [UserCache.get_session, h, lookupA_insertA_self]

/-! ## C1 — `add_user` and the preservation of `last_shop_id`/`shops` -/

/-- A cache state in which user 1 already has a profile with a recorded
`last_shop_id` and a non-empty `shops` map. -/
def c1Cache : UserCache :=
  { users := [(1, { telegram_id := 1, username := some "bob", first_name := some "Bob"
                    last_name := none, created_at := 10, last_shop_id := some "shop1"
                    shops := [("shop1", 10)] })]
    user_sessions := [] }

/-- The `user_data` dict `start_command` passes to `add_user`: only the three
display fields, no `last_shop_id` and no `shops`. -/
def c1StartData : UserData :=
  { username := some "bob", first_name := some "Bob", last_name := none }

/-- C1: refuted by evaluation — `add_user` on an already-cached user with
fields that do not include `last_shop_id`/`shops` does NOT preserve the
stored `last_shop_id` (`some "shop1"` before) and `shops` map: it resets
them to `none` and `[]`, because the profile dict is rebuilt from scratch
from `user_data` alone. -/
theorem add_user_drops_last_shop_and_shops :
    (c1Cache.get_user 1).map UserProfile.last_shop_id = some (some "shop1") ∧
    (c1Cache.get_user 1).map UserProfile.shops = some [("shop1", 10)] ∧
    ((c1Cache.add_user 1 c1StartData 20).get_user 1).map UserProfile.last_shop_id =
      some none ∧
    ((c1Cache.add_user 1 c1StartData 20).get_user 1).map UserProfile.shops = some [] := by
  decide

/-! ## C8 — `update_shop_interaction` -/

/-- C8: counterexample to the claim as stated — for a user with no cached
profile, `update_shop_interaction` is a guarded no-op (`if telegram_id in
self.users`), so no profile with `last_shop_id = S` exists afterwards. -/
theorem update_shop_interaction_uncached_no_profile :
    ¬ ∃ u : UserProfile,
        (UserCache.update_shop_interaction {} 1 "s1" 0).get_user 1 = some u ∧
        u.last_shop_id = some "s1" := by
  decide

/-- C8 (amended to cached users): for every user with a cached profile,
`update_shop_interaction` sets `last_shop_id` to the shop, stamps
`shops[shopId]` with the current time (creating the entry if missing) while
keeping all other profile fields, and running it twice in succession with
the same shop yields exactly the state of a single call with the second
timestamp. -/
theorem update_shop_interaction_spec (c : UserCache) (uid : Nat) (S : String)
    (t t' : Nat) (u : UserProfile) (h : c.get_user uid = some u) :
    (∃ u', (c.update_shop_interaction uid S t).get_user uid = some u' ∧
        u'.last_shop_id = some S ∧
        lookupA u'.shops S = some t ∧
        u'.telegram_id = u.telegram_id ∧
        u'.username = u.username ∧
        u'.first_name = u.first_name ∧
        u'.last_name = u.last_name ∧
        u'.created_at = u.created_at) ∧
    (c.update_shop_interaction uid S t).update_shop_interaction uid S t' =
      c.update_shop_interaction uid S t' := by
  have hl : lookupA c.users uid = some u := h
  constructor
  · refine ⟨{ u with last_shop_id := some S, shops := insertA u.shops S t }, ?_⟩
    simp [UserCache.update_shop_interaction, hl, UserCache.get_user,
      lookupA_insertA_self]
  · simp only [UserCache.update_shop_interaction, hl, lookupA_insertA_self,
      insertA_insertA]

/-- Witness for `update_shop_interaction_spec` at a concrete cache. -/
theorem update_shop_interaction_spec_witness :
    c1Cache.get_user 1 = some { telegram_id := 1, username := some "bob"
                                first_name := some "Bob", last_name := none
                                created_at := 10, last_shop_id := some "shop1"
                                shops := [("shop1", 10)] } ∧
    (∃ u', (c1Cache.update_shop_interaction 1 "s2" 42).get_user 1 = some u' ∧
        u'.last_shop_id = some "s2" ∧
        lookupA u'.shops "s2" = some 42 ∧
        u'.telegram_id = 1 ∧
        u'.username = some "bob" ∧
        u'.first_name = some "Bob" ∧
        u'.last_name = none ∧
        u'.created_at = 10) ∧
    (c1Cache.update_shop_interaction 1 "s2" 42).update_shop_interaction 1 "s2" 43 =
      c1Cache.update_shop_interaction 1 "s2" 43 :=
  ⟨by decide,
    (update_shop_interaction_spec c1Cache 1 "s2" 42 43
      { telegram_id := 1, username := some "bob", first_name := some "Bob"
        last_name := none, created_at := 10, last_shop_id := some "shop1"
        shops := [("shop1", 10)] } (by decide)).1,
    (update_shop_interaction_spec c1Cache 1 "s2" 42 43
      { telegram_id := 1, username := some "bob", first_name := some "Bob"
        last_name := none, created_at := 10, last_shop_id := some "shop1"
        shops := [("shop1", 10)] } (by decide)).2⟩

/-! ## C5 — ownership gate on entering the add flows -/

/-- C5: a user who passes neither ownership check gets a permission-denied
response from both `handle_add_category` and `handle_add_product`
(with or without a preselected category), and the cache — in particular the
session store — is unchanged. -/
theorem add_flows_permission_denied (cache : UserCache) (st : Store)
    (owners : List (String × Nat)) (uid : Nat) (S : String) (cid : Option String)
    (h1 : is_shop_owner st uid S = false)
    (h2 : is_shop_owner_by_telegram_id owners uid S = false) :
    handle_add_category cache st owners uid S =
      { cache := cache, store := st, resps := [.permissionDenied] } ∧
    handle_add_product cache st owners uid S cid =
      { cache := cache, store := st, resps := [.permissionDenied] } := by
  constructor
  · simp [handle_add_category, h1, h2]
  · simp [handle_add_product, h1, h2]

/-- Witness for `add_flows_permission_denied`: an empty store and owner
table, where user 7 owns nothing. -/
theorem add_flows_permission_denied_witness :
    is_shop_owner {} 7 "s1" = false ∧
    is_shop_owner_by_telegram_id [] 7 "s1" = false ∧
    handle_add_category {} {} [] 7 "s1" =
      { cache := {}, store := {}, resps := [.permissionDenied] } ∧
    handle_add_product {} {} [] 7 "s1" none =
      { cache := {}, store := {}, resps := [.permissionDenied] } :=
  ⟨by decide, by decide,
    (add_flows_permission_denied {} {} [] 7 "s1" none (by decide) (by decide)).1,
    (add_flows_permission_denied {} {} [] 7 "s1" none (by decide) (by decide)).2⟩

/-! ## C6 — order intake rejects unavailable products -/

/-- C6: `handle_order_request` for a product with zero stock or an inactive
product reports the unavailable-item response and leaves the store — in
particular the `orders` collection — unchanged. -/
theorem placeOrder_unavailable (st : Store) (uid : Nat) (S P : String)
    (user : ChatUser) (now : Nat) (p : ProductDoc)
    (hp : lookupA st.products P = some p)
    (h : p.stock = 0 ∨ p.isActive = false) :
    handle_order_request st uid S P user now = (st, [Resp.unavailableItem]) := by
  have hcond : ¬ p.isActive ∨ p.stock ≤ 0 := by
    rcases h with h | h
    · exact Or.inr (le_of_eq h)
    · exact Or.inl (by simp [h])
  simp only [handle_order_request, hp, if_pos hcond]

/-- A store with one shop and one product out of stock. -/
def c6Store : Store :=
  { shops := [("s1", { name := "Shop One" })]
    products := [("p1", { name := "Latte", price := PyFloat.finite ((9 : ℚ) / 2), stock := 0
                          category := "Drinks", shopId := "s1" })] }

/-- Witness for `placeOrder_unavailable` at the zero-stock product. -/
theorem placeOrder_unavailable_witness :
    lookupA c6Store.products "p1" =
      some { name := "Latte", price := PyFloat.finite ((9 : ℚ) / 2), stock := 0
             category := "Drinks", shopId := "s1" } ∧
    handle_order_request c6Store 5 "s1" "p1" { first_name := "Ann" } 99 =
      (c6Store, [Resp.unavailableItem]) :=
  ⟨by rfl,
    placeOrder_unavailable c6Store 5 "s1" "p1" { first_name := "Ann" } 99 _ (by rfl)
      (Or.inl rfl)⟩

/-! ## C4 — invalid price input is a recoverable validation error -/

/-- C4: at the `price` step, an input on which `float(...)` raises
`ValueError` or yields a value with `value <= 0` (the program's test, which
`PyFloat.leZero` renders under IEEE semantics — so `nan` and `inf`, which
the program accepts and acts on, are correctly outside this hypothesis)
leaves the cache (hence the flow, still at step `price`, with all collected
fields) and the store unchanged; only the invalid-price re-prompt is sent.
The ASCII-input hypothesis scopes the theorem to the inputs on which
`parsePyFloat` is an exact model of `float(...)` (CPython normalizes
non-ASCII decimal digits and whitespace before parsing, which is outside
the model). -/
theorem price_step_invalid_input (cache : UserCache) (st : Store) (uid : Nat)
    (raw : String) (fid : String) (now : Nat) (flow : ProdFlow)
    (_hascii : ∀ c ∈ raw.data, c.toNat < 128)
    (hcat : (cache.get_session uid).adding_category = none)
    (hprod : (cache.get_session uid).adding_product = some flow)
    (hstep : flow.step = "price")
    (hbad : parsePyFloat (pyStrip raw) = none ∨
            ∃ v, parsePyFloat (pyStrip raw) = some v ∧ v.leZero = true) :
    handle_text_message cache st uid raw fid now =
      { cache := cache, store := st, resps := [.invalidPrice] } := by
  rcases hbad with hb | ⟨v, hv, hle⟩
  · simp [handle_text_message, hcat, hprod, process_product_creation, hstep, hb]
  · simp [handle_text_message, hcat, hprod, process_product_creation, hstep, hv, hle]

/-- A cache with user 3 in a product flow waiting at the `price` step. -/
def c4Cache : UserCache :=
  { users := []
    user_sessions :=
      [(3, { adding_category := none
             adding_product := some { shop_id := "s1", category_id := "c1"
                                      category_name := "Drinks", step := "price"
                                      name := some "Latte"
                                      description := some "Hot coffee" } })] }

/-- Witness for `price_step_invalid_input`: feeding `"abc"` (ASCII, a
`float()` parse failure) at the price step changes nothing and re-prompts. -/
theorem price_step_invalid_input_witness :
    (∀ c ∈ "abc".data, c.toNat < 128) ∧
    (c4Cache.get_session 3).adding_category = none ∧
    (c4Cache.get_session 3).adding_product =
      some { shop_id := "s1", category_id := "c1", category_name := "Drinks"
             step := "price", name := some "Latte", description := some "Hot coffee" } ∧
    parsePyFloat (pyStrip "abc") = none ∧
    handle_text_message c4Cache {} 3 "abc" "f1" 5 =
      { cache := c4Cache, store := {}, resps := [.invalidPrice] } :=
  ⟨by decide, by decide, by decide, by decide,
    price_step_invalid_input c4Cache {} 3 "abc" "f1" 5
      { shop_id := "s1", category_id := "c1", category_name := "Drinks"
        step := "price", name := some "Latte", description := some "Hot coffee" }
      (by decide) (by decide) (by decide) (by decide) (Or.inl (by decide))⟩

/-! ## C10 — unknown step values are silent no-ops -/

/-- C10: a text message arriving for an active flow whose `step` is outside
the flow's defined step names falls through every branch: the cache and the
store are unchanged and no response is sent. -/
theorem unknown_step_silent_noop (cache : UserCache) (st : Store) (uid : Nat)
    (raw : String) (fid : String) (now : Nat) :
    (∀ cf : CatFlow, (cache.get_session uid).adding_category = some cf →
      cf.step ∉ (["name", "description", "icon"] : List String) →
      handle_text_message cache st uid raw fid now =
        { cache := cache, store := st, resps := [] }) ∧
    (∀ pf : ProdFlow, (cache.get_session uid).adding_category = none →
      (cache.get_session uid).adding_product = some pf →
      pf.step ∉ (["name", "description", "price", "stock"] : List String) →
      handle_text_message cache st uid raw fid now =
        { cache := cache, store := st, resps := [] }) := by
  constructor
  · intro cf hcf hstep
    simp only [List.mem_cons, List.mem_singleton, not_or] at hstep
    obtain ⟨h1, h2, h3, -⟩ := hstep
    simp [handle_text_message, hcf, process_category_creation, h1, h2, h3]
  · intro pf hcat hpf hstep
    simp only [List.mem_cons, List.mem_singleton, not_or] at hstep
    obtain ⟨h1, h2, h3, h4, -⟩ := hstep
    simp [handle_text_message, hcat, hpf, process_product_creation, h1, h2, h3, h4]

/-- A cache with user 4 in a category flow at an undefined step and user 5
in a product flow at an undefined step. -/
def c10Cache : UserCache :=
  { users := []
    user_sessions :=
      [(4, { adding_category := some { shop_id := "s1", step := "emoji" } }),
       (5, { adding_product := some { shop_id := "s1", category_id := "c1"
                                      category_name := "Drinks", step := "prize" } })] }

/-- Witness for `unknown_step_silent_noop` at undefined steps of both flow
kinds. -/
theorem unknown_step_silent_noop_witness :
    handle_text_message c10Cache {} 4 "hello" "f1" 9 =
      { cache := c10Cache, store := {}, resps := [] } ∧
    handle_text_message c10Cache {} 5 "hello" "f1" 9 =
      { cache := c10Cache, store := {}, resps := [] } :=
  ⟨(unknown_step_silent_noop c10Cache {} 4 "hello" "f1" 9).1
      { shop_id := "s1", step := "emoji" } (by decide) (by decide),
    (unknown_step_silent_noop c10Cache {} 5 "hello" "f1" 9).2
      { shop_id := "s1", category_id := "c1", category_name := "Drinks"
        step := "prize" } (by decide) (by decide) (by decide)⟩

/-! ## C9 — skip buttons versus typing "skip" -/

/-- C9: for an active flow, pressing the dedicated skip button at the
description step (category or product flow) or at the icon step (category
flow) produces exactly the result of typing the literal text "skip" at that
step: same session state, same store (hence the same commit, if any).  The
flows reached through the engine always carry a `name` by the time they sit
at the description step; that reachability fact is the `isSome`
hypothesis. -/
theorem skip_buttons_equiv_typed_skip (cache : UserCache) (st : Store) (uid : Nat)
    (fid : String) (now : Nat) :
    (∀ cf : CatFlow, (cache.get_session uid).adding_category = some cf →
      cf.step = "description" → cf.name.isSome →
      skip_category_desc_button cache st uid =
        handle_text_message cache st uid "skip" fid now) ∧
    (∀ cf : CatFlow, (cache.get_session uid).adding_category = some cf →
      cf.step = "icon" →
      skip_category_icon_button cache st uid fid now =
        handle_text_message cache st uid "skip" fid now) ∧
    (∀ pf : ProdFlow, (cache.get_session uid).adding_category = none →
      (cache.get_session uid).adding_product = some pf →
      pf.step = "description" → pf.name.isSome →
      skip_product_desc_button cache st uid =
        handle_text_message cache st uid "skip" fid now) := by
  have e2 : pyStrip "skip" = "skip" := by decide
  have e3 : pyLower "skip" = "skip" := by decide
  refine ⟨?_, ?_, ?_⟩
  · intro cf hcf hstep hname
    obtain ⟨nm, hnm⟩ := Option.isSome_iff_exists.mp hname
    simp [skip_category_desc_button, handle_text_message, hcf, e2, e3,
      process_category_creation, hstep, hnm]
  · intro cf hcf hstep
    simp [skip_category_icon_button, handle_text_message, hcf, e2, e3,
      process_category_creation, hstep]
  · intro pf hcat hpf hstep hname
    obtain ⟨nm, hnm⟩ := Option.isSome_iff_exists.mp hname
    simp [skip_product_desc_button, handle_text_message, hcat, hpf, e2, e3,
      process_product_creation, hstep, hnm]

/-- A cache with three users sitting at the three skippable positions. -/
def c9Cache : UserCache :=
  { users := []
    user_sessions :=
      [(11, { adding_category := some { shop_id := "s1", step := "description"
                                        name := some "Drinks" } }),
       (12, { adding_category := some { shop_id := "s1", step := "icon"
                                        name := some "Drinks" } }),
       (13, { adding_product := some { shop_id := "s1", category_id := "c1"
                                       category_name := "Drinks"
                                       step := "description"
                                       name := some "Latte" } })] }

/-- Witness for `skip_buttons_equiv_typed_skip` at all three skippable
positions. -/
theorem skip_buttons_equiv_typed_skip_witness :
    skip_category_desc_button c9Cache {} 11 =
      handle_text_message c9Cache {} 11 "skip" "f1" 7 ∧
    skip_category_icon_button c9Cache {} 12 "f1" 7 =
      handle_text_message c9Cache {} 12 "skip" "f1" 7 ∧
    skip_product_desc_button c9Cache {} 13 =
      handle_text_message c9Cache {} 13 "skip" "f1" 7 :=
  ⟨(skip_buttons_equiv_typed_skip c9Cache {} 11 "f1" 7).1
      { shop_id := "s1", step := "description", name := some "Drinks" }
      (by decide) (by decide) (by decide),
    (skip_buttons_equiv_typed_skip c9Cache {} 12 "f1" 7).2.1
      { shop_id := "s1", step := "icon", name := some "Drinks" }
      (by decide) (by decide),
    (skip_buttons_equiv_typed_skip c9Cache {} 13 "f1" 7).2.2
      { shop_id := "s1", category_id := "c1", category_name := "Drinks"
        step := "description", name := some "Latte" }
      (by decide) (by decide) (by decide) (by decide)⟩

/-! ## C3 — the CreateCategory flow end to end -/

theorem insertSortedByOrder_length (c : String × CategoryDoc)
    (l : List (String × CategoryDoc)) :
    (insertSortedByOrder c l).length = l.length + 1 := by
  induction l with
  | nil => rfl
  | cons d rest ih =>
    simp only [insertSortedByOrder]
    split
    · simp
    · simp [ih]

theorem sortByOrder_length (l : List (String × CategoryDoc)) :
    (sortByOrder l).length = l.length := by
  induction l with
  | nil => rfl
  | cons c rest ih => simp [sortByOrder, insertSortedByOrder_length, ih]

theorem get_shop_categories_length (st : Store) (S : String) :
    (get_shop_categories st S).length =
      (st.categories.filter (fun p => p.2.shopId = S)).length := by
  simp [get_shop_categories, sortByOrder_length]

/-- Feeding a list of timed free-text inputs through `handle_text_message`,
returning the final cache and store. -/
def runTexts (cache : UserCache) (st : Store) (uid : Nat) (fid : String) :
    List (String × Nat) → UserCache × Store
  | [] => (cache, st)
  | (t, now) :: rest =>
    let r := handle_text_message cache st uid t fid now
    runTexts r.cache r.store uid fid rest

/-- C3: an `adding_category` flow for shop `S` at step `name`, fed the texts
"Drinks", "skip", "skip", commits exactly one category document with name
"Drinks", empty description, the default icon, and `order` equal to the
number of categories that existed for `S` before the flow, leaving every
other collection unchanged and clearing the session. -/
theorem category_flow_drinks_skip_skip (cache : UserCache) (st : Store) (uid : Nat)
    (S fid : String) (n1 n2 n3 : Nat)
    (h : (cache.get_session uid).adding_category = some { shop_id := S, step := "name" }) :
    (runTexts cache st uid fid [("Drinks", n1), ("skip", n2), ("skip", n3)]).2.categories =
      st.categories ++
        [(fid, { name := "Drinks", description := "", icon := "📦"
                 order := (st.categories.filter (fun p => p.2.shopId = S)).length
                 shopId := S, userId := get_user_firebase_uid st uid
                 createdAt := n3, updatedAt := n3 })] ∧
    (runTexts cache st uid fid [("Drinks", n1), ("skip", n2), ("skip", n3)]).2.orders =
      st.orders ∧
    (runTexts cache st uid fid [("Drinks", n1), ("skip", n2), ("skip", n3)]).2.products =
      st.products ∧
    ((runTexts cache st uid fid
        [("Drinks", n1), ("skip", n2), ("skip", n3)]).1.get_session uid).adding_category =
      none := by
  have e1 : pyStrip "Drinks" = "Drinks" := by decide
  have e2 : pyStrip "skip" = "skip" := by decide
  have e3 : pyLower "skip" = "skip" := by decide
  have r1 : handle_text_message cache st uid "Drinks" fid n1 =
      { cache := cache.set_adding_category uid
          { shop_id := S, step := "description", name := some "Drinks" }
        store := st, resps := [.promptCategoryDescription] } := by
    simp [handle_text_message, h, process_category_creation, e1]
  have r2 : handle_text_message
      (cache.set_adding_category uid
        { shop_id := S, step := "description", name := some "Drinks" })
      st uid "skip" fid n2 =
      { cache := (cache.set_adding_category uid
          { shop_id := S, step := "description", name := some "Drinks" }).set_adding_category
            uid { shop_id := S, step := "icon", name := some "Drinks" }
        store := st, resps := [.promptCategoryIcon] } := by
    simp [handle_text_message, get_session_set_adding_category, e2, e3,
      process_category_creation]
  simp only [runTexts, r1, r2]
  simp only [handle_text_message, get_session_set_adding_category, e2,
    process_category_creation, e3]
  simp only [create_category, get_session_clear_adding_category,
    get_session_set_adding_category]
  refine ⟨?_, rfl, rfl, ?_⟩
  · simp [get_shop_categories_length]
  · simp [get_session_clear_adding_category]

/-- A cache with user 2 holding a fresh `adding_category` flow for shop
`s1`. -/
def c3Cache : UserCache :=
  { users := []
    user_sessions := [(2, { adding_category := some { shop_id := "s1", step := "name" } })] }

/-- A store where shop `s1` already has one category. -/
def c3Store : Store :=
  { categories := [("c0", { name := "Food", description := "", icon := "🍔", order := 0
                            shopId := "s1", userId := "u0", createdAt := 0
                            updatedAt := 0 })] }

/-- Witness for `category_flow_drinks_skip_skip` on a concrete store with one
pre-existing category (so the committed `order` is its count, 1). -/
theorem category_flow_drinks_skip_skip_witness :
    (c3Cache.get_session 2).adding_category =
      some { shop_id := "s1", step := "name" } ∧
    ((runTexts c3Cache c3Store 2 "cid9"
        [("Drinks", 1), ("skip", 2), ("skip", 3)]).2.categories =
      c3Store.categories ++
        [("cid9", { name := "Drinks", description := "", icon := "📦"
                    order := (c3Store.categories.filter
                      (fun p => p.2.shopId = "s1")).length
                    shopId := "s1", userId := get_user_firebase_uid c3Store 2
                    createdAt := 3, updatedAt := 3 })] ∧
      (runTexts c3Cache c3Store 2 "cid9"
        [("Drinks", 1), ("skip", 2), ("skip", 3)]).2.orders = c3Store.orders ∧
      (runTexts c3Cache c3Store 2 "cid9"
        [("Drinks", 1), ("skip", 2), ("skip", 3)]).2.products = c3Store.products ∧
      ((runTexts c3Cache c3Store 2 "cid9"
          [("Drinks", 1), ("skip", 2), ("skip", 3)]).1.get_session 2).adding_category =
        none) :=
  ⟨by decide,
    category_flow_drinks_skip_skip c3Cache c3Store 2 "s1" "cid9" 1 2 3 (by decide)⟩

/-! ## C7 — successful order intake creates exactly one order -/

theorem navStep_preserves_orders_products (st : BotState) (e : NavEvent) :
    (navStep st e).store.orders = st.store.orders ∧
    (navStep st e).store.products = st.store.products := by
  cases e with
  | viewShop uid S now =>
    simp only [navStep, update_user_shop_interaction]
    cases h : lookupA st.store.users_docs uid <;> simp
  | viewCategory a b => exact ⟨rfl, rfl⟩
  | viewProduct a b => exact ⟨rfl, rfl⟩

theorem navRun_preserves_orders_products (es : List NavEvent) (st : BotState) :
    (es.foldl navStep st).store.orders = st.store.orders ∧
    (es.foldl navStep st).store.products = st.store.products := by
  induction es generalizing st with
  | nil => exact ⟨rfl, rfl⟩
  | cons e rest ih =>
    simp only [List.foldl_cons]
    obtain ⟨h1, h2⟩ := navStep_preserves_orders_products st e
    obtain ⟨h1', h2'⟩ := ih (navStep st e)
    exact ⟨h1'.trans h1, h2'.trans h2⟩

/-- C7: after any sequence of navigation screen views, a `handle_order_request`
on an available product appends exactly one order document to the orders that
existed before the navigation; the order holds exactly one line item with
quantity 1 whose line total equals the product's unit price, and the order's
total equals that line total. -/
theorem placeOrder_creates_single_order (st0 : BotState) (es : List NavEvent)
    (uid : Nat) (S P : String) (user : ChatUser) (now : Nat) (p : ProductDoc)
    (hp : lookupA st0.store.products P = some p)
    (hact : p.isActive = true) (hstock : 0 < p.stock) :
    ∃ o : OrderDoc,
      (handle_order_request (es.foldl navStep st0).store uid S P user now).1.orders =
        st0.store.orders ++ [o] ∧
      (∃ it : OrderItem, o.items = [it] ∧ it.quantity = 1 ∧ it.price = p.price ∧
        it.total = it.price ∧ o.total = it.price) ∧
      (handle_order_request (es.foldl navStep st0).store uid S P user now).2 =
        [Resp.orderConfirmation] := by
  obtain ⟨hord, hpr⟩ := navRun_preserves_orders_products es st0
  have hp' : lookupA (es.foldl navStep st0).store.products P = some p := by
    rw [hpr]; exact hp
  have hcond : ¬ (¬ p.isActive ∨ p.stock ≤ 0) := by
    push_neg
    exact ⟨by simp [hact], hstock⟩
  simp only [handle_order_request, hp', if_neg hcond]
  exact ⟨_, by rw [hord], ⟨_, rfl, rfl, rfl, rfl, rfl⟩, by simp⟩

/-- A bot state whose store has one available product. -/
def c7State : BotState :=
  { cache := {}
    store :=
      { users_docs := [(5, { firebase_uid := some "fb5" })]
        shops := [("s1", { name := "Shop One" })]
        products := [("p1", { name := "Latte", price := PyFloat.finite 5, stock := 20
                              category := "Drinks", shopId := "s1" })] } }

/-- Witness for `placeOrder_creates_single_order` after one shop view. -/
theorem placeOrder_creates_single_order_witness :
    lookupA c7State.store.products "p1" =
      some { name := "Latte", price := PyFloat.finite 5, stock := 20
             category := "Drinks", shopId := "s1" } ∧
    ∃ o : OrderDoc,
      (handle_order_request
         (([NavEvent.viewShop 5 "s1" 4]).foldl navStep c7State).store
         5 "s1" "p1" { first_name := "Ann" } 9).1.orders =
        c7State.store.orders ++ [o] ∧
      (∃ it : OrderItem, o.items = [it] ∧ it.quantity = 1 ∧ it.price = PyFloat.finite 5 ∧
        it.total = it.price ∧ o.total = it.price) ∧
      (handle_order_request
         (([NavEvent.viewShop 5 "s1" 4]).foldl navStep c7State).store
         5 "s1" "p1" { first_name := "Ann" } 9).2 = [Resp.orderConfirmation] :=
  ⟨by rfl,
    placeOrder_creates_single_order c7State [NavEvent.viewShop 5 "s1" 4] 5 "s1" "p1"
      { first_name := "Ann" } 9
      { name := "Latte", price := PyFloat.finite 5, stock := 20, category := "Drinks", shopId := "s1" }
      (by rfl) (by rfl) (by decide)⟩

/-! ## C2 — the button payload wire protocol -/

theorem splitAllUnd_ne_nil (l : List Char) : splitAllUnd l ≠ [] := by
  cases l with
  | nil => simp [splitAllUnd]
  | cons c rest => simp only [splitAllUnd]; split <;> simp

theorem splitAllUnd_append (s t : List Char) (h : '_' ∉ s) :
    splitAllUnd (s ++ t) = (s ++ (splitAllUnd t).headD []) :: (splitAllUnd t).tail := by
  induction s with
  | nil =>
    simp only [List.nil_append]
    have hne := splitAllUnd_ne_nil t
    cases hh : splitAllUnd t with
    | nil => exact absurd hh hne
    | cons a b => simp
  | cons c s ih =>
    simp only [List.mem_cons, not_or] at h
    have hc : ¬ (c = '_') := fun hh => h.1 hh.symm
    simp only [List.cons_append, splitAllUnd, if_neg hc, List.append_eq]
    rw [ih h.2]
    simp

theorem splitAllUnd_append_und (s t : List Char) (h : '_' ∉ s) :
    splitAllUnd (s ++ '_' :: t) = s :: splitAllUnd t := by
  rw [splitAllUnd_append s ('_' :: t) h]
  have hne := splitAllUnd_ne_nil t
  cases hh : splitAllUnd t with
  | nil => exact absurd hh hne
  | cons a b => simp [splitAllUnd, hh]

theorem splitAllUnd_eq_single (s : List Char) (h : '_' ∉ s) : splitAllUnd s = [s] := by
  have := splitAllUnd_append s [] h
  simpa [splitAllUnd] using this

theorem getD_cons_one {α : Type} (a b : α) (l : List α) (d : α) :
    (a :: b :: l).getD 1 d = b := rfl

theorem getD_cons_two {α : Type} (a b c : α) (l : List α) (d : α) :
    (a :: b :: c :: l).getD 2 d = c := rfl

theorem getD_cons_three {α : Type} (a b c e : α) (l : List α) (d : α) :
    (a :: b :: c :: e :: l).getD 3 d = e := rfl

theorem getD_cons_four {α : Type} (a b c e f : α) (l : List α) (d : α) :
    (a :: b :: c :: e :: f :: l).getD 4 d = f := rfl

/-- C2: counterexample to the round trip as stated — the `shop_stats_` (and
likewise `shop_settings_`) payload is intercepted by the earlier
`data.startswith("shop_")` branch, so encoding the shop-stats action for shop
`s1` and decoding the payload yields a plain shop navigation with the mangled
shop id `stats_s1`, not the encoded action. -/
theorem shop_stats_payload_misdecoded :
    encode_payload (BtnAction.shopStats "s1".data) = "shop_stats_s1".data ∧
    decode_payload (encode_payload (BtnAction.shopStats "s1".data)) =
      Decoded.act (BtnAction.shop "stats_s1".data) ∧
    decode_payload (encode_payload (BtnAction.shopStats "s1".data)) ≠
      Decoded.act (BtnAction.shopStats "s1".data) := by
  exact ⟨by decide, by decide, by decide⟩

/-- C2 (amended): for every encoded action except `shop_stats_` and
`shop_settings_` — whose payloads are shadowed by the `shop_` navigation
branch — and with identifiers free of the `_` delimiter, decoding the
encoded payload recovers exactly the action and its identifiers. -/
theorem encode_then_decode (a : BtnAction)
    (hids : ∀ s ∈ a.ids, '_' ∉ s)
    (hstats : ∀ s, a ≠ BtnAction.shopStats s)
    (hsettings : ∀ s, a ≠ BtnAction.shopSettings s) :
    decode_payload (encode_payload a) = Decoded.act a := by
  cases a with
  | refreshShops => simp [encode_payload, decode_payload]
  | shop s =>
    simp [encode_payload, decode_payload, List.isPrefixOf, afterUnd]
  | category s c =>
    have hs : '_' ∉ s := hids s (by simp [BtnAction.ids])
    have hc : '_' ∉ c := hids c (by simp [BtnAction.ids])
    simp [encode_payload, decode_payload, List.isPrefixOf, splitAllUnd,
      splitAllUnd_append_und, splitAllUnd_eq_single, getD_cons_one, getD_cons_two,
      hs, hc]
  | product s p =>
    have hs : '_' ∉ s := hids s (by simp [BtnAction.ids])
    have hp : '_' ∉ p := hids p (by simp [BtnAction.ids])
    simp [encode_payload, decode_payload, List.isPrefixOf, splitAllUnd,
      splitAllUnd_append_und, splitAllUnd_eq_single, getD_cons_one, getD_cons_two,
      hs, hp]
  | order s p =>
    have hs : '_' ∉ s := hids s (by simp [BtnAction.ids])
    have hp : '_' ∉ p := hids p (by simp [BtnAction.ids])
    simp [encode_payload, decode_payload, List.isPrefixOf, splitAllUnd,
      splitAllUnd_append_und, splitAllUnd_eq_single, getD_cons_one, getD_cons_two,
      hs, hp]
  | addCategory s =>
    simp [encode_payload, decode_payload, List.isPrefixOf, afterUnd]
  | addProductCategory s c =>
    have hs : '_' ∉ s := hids s (by simp [BtnAction.ids])
    have hc : '_' ∉ c := hids c (by simp [BtnAction.ids])
    simp [encode_payload, decode_payload, List.isPrefixOf, splitAllUnd,
      splitAllUnd_append_und, splitAllUnd_eq_single, getD_cons_three, getD_cons_four,
      hs, hc]
  | addProduct s =>
    have hs : '_' ∉ s := hids s (by simp [BtnAction.ids])
    have hnp : ¬ (['c', 'a', 't', 'e', 'g', 'o', 'r', 'y', '_'] <+: s) :=
      fun hp => hs (hp.subset (by simp))
    simp [encode_payload, decode_payload, List.isPrefixOf, afterUnd, hnp]
  | shopStats s => exact absurd rfl (hstats s)
  | shopSettings s => exact absurd rfl (hsettings s)
  | manageStaff s =>
    simp [encode_payload, decode_payload, List.isPrefixOf, afterUnd]
  | viewAnalytics s =>
    simp [encode_payload, decode_payload, List.isPrefixOf, afterUnd]
  | sendAnnouncement s =>
    simp [encode_payload, decode_payload, List.isPrefixOf, afterUnd]
  | skipCategoryDesc s =>
    simp [encode_payload, decode_payload, List.isPrefixOf, afterUnd]
  | skipCategoryIcon s =>
    simp [encode_payload, decode_payload, List.isPrefixOf, afterUnd]
  | skipProductDesc s =>
    simp [encode_payload, decode_payload, List.isPrefixOf, afterUnd]

/-- Witness for `encode_then_decode` at a concrete category button. -/
theorem encode_then_decode_witness :
    (∀ s ∈ (BtnAction.category "s1".data "c2".data).ids, '_' ∉ s) ∧
    (∀ s, BtnAction.category "s1".data "c2".data ≠ BtnAction.shopStats s) ∧
    (∀ s, BtnAction.category "s1".data "c2".data ≠ BtnAction.shopSettings s) ∧
    decode_payload (encode_payload (BtnAction.category "s1".data "c2".data)) =
      Decoded.act (BtnAction.category "s1".data "c2".data) :=
  ⟨by decide, fun s => by simp, fun s => by simp,
    encode_then_decode (BtnAction.category "s1".data "c2".data) (by decide)
      (fun s => by simp) (fun s => by simp)⟩
